import Mathlib

/-!
Verification development for the `gAi` command-line tool (`src/main.rs`).

Text is modelled as `List Char`. The program's three stages —
`get_git_diff`, the request construction and HTTP exchange inside
`generate_commit_message`, and `create_commit` — are embedded as pure
functions over an explicit environment record describing the outcomes of
the external calls (environment lookup, git subprocesses, HTTP response).
Observable external actions are collected in a trace.
-/

namespace GAi

/-- The Unicode `White_Space` code points, the set recognised by Rust's
`char::is_whitespace`, which underlies `str::trim` (src/main.rs line 202). -/
def rustWhitespace : List Char :=
  ['\t', '\n', '\x0b', '\x0c', '\r', ' ', '\u0085', ' ', ' ',
   ' ', ' ', ' ', ' ', ' ', ' ', ' ',
   ' ', ' ', ' ', ' ', ' ', ' ', ' ',
   ' ', '　']

/-- Rust's `char::is_whitespace`. -/
def isRustWhitespace (c : Char) : Bool :=
  rustWhitespace.contains c

/-- The pattern `'"'` given to `trim_matches` (src/main.rs line 203). -/
def isQuote (c : Char) : Bool :=
  c == '"'

/-- Remove every leading and every trailing character satisfying `p`,
repeatedly, as Rust's `str::trim` (with `p` = whitespace) and
`str::trim_matches` (with an arbitrary char pattern) both do. -/
def trimBy (p : Char → Bool) (s : List Char) : List Char :=
  List.rdropWhile p (s.dropWhile p)

/-- Rust `str::trim` (src/main.rs line 202). -/
def rustTrim (s : List Char) : List Char :=
  trimBy isRustWhitespace s

/-- Rust `str::trim_matches('"')` (src/main.rs line 203): all leading and
trailing double-quote characters are removed, each end independently. -/
def trimMatchesQuote (s : List Char) : List Char :=
  trimBy isQuote s

/-- The message clean-up of src/main.rs lines 201-204:
`commit_message.trim().trim_matches('"')`. -/
def normalize (s : List Char) : List Char :=
  trimMatchesQuote (rustTrim s)

/-- Strip at most one leading and at most one trailing double quote,
each end independently. Written from the spec's words for claim C1
("no more than one quote character is removed from either end"), to be
compared against `normalize`, which embeds the source. -/
def stripOnePair (s : List Char) : List Char :=
  let s1 := if s.head? = some '"' then s.tail else s
  if s1.getLast? = some '"' then s1.dropLast else s1

/-- The normalization the spec sentence of claim C1 describes: trim
whitespace, then remove at most one quote character from each end. -/
def normalizeSpecOnePair (s : List Char) : List Char :=
  stripOnePair (rustTrim s)

/-! ### Data model (src/main.rs lines 35-63) -/

/-- `struct Message { role: String, content: String }` (src/main.rs lines 42-46). -/
structure Message where
  role : List Char
  content : List Char
deriving DecidableEq

/-- `struct Choice { message: Message }` (src/main.rs lines 55-58). -/
structure Choice where
  message : Message
deriving DecidableEq

/-- `struct OpenAIError { message: String }` (src/main.rs lines 60-63). -/
structure OpenAIError where
  message : List Char
deriving DecidableEq

/-- `struct OpenAIResponse { choices: Vec<Choice>, #[serde(default)] error:
Option<OpenAIError> }` (src/main.rs lines 48-53). -/
structure OpenAIResponse where
  choices : List Choice
  error : Option OpenAIError
deriving DecidableEq

/-- `struct OpenAIRequest { model: String, messages: Vec<Message>,
temperature: f32 }` (src/main.rs lines 35-40). The floating-point
temperature is kept opaque as a type parameter: the program never
inspects it, it is only carried into the serialized request. -/
structure OpenAIRequest (α : Type) where
  model : List Char
  messages : List Message
  temperature : α
deriving DecidableEq

/-! ### JSON values and the serde-derived deserializer of `OpenAIResponse` -/

/-- JSON values, as far as the response deserialization distinguishes
them. Numbers are carried opaquely: no field of `OpenAIResponse` is
numeric, so a number can only make a parse fail. -/
inductive Json where
  | null : Json
  | bool (b : Bool) : Json
  | num (n : Int) : Json
  | str (s : List Char) : Json
  | arr (items : List Json) : Json
  | obj (fields : List (List Char × Json)) : Json

/-- First binding of a key in a JSON object. -/
def lookupField (k : List Char) : List (List Char × Json) → Option Json
  | [] => none
  | (k', v) :: rest => if k' = k then some v else lookupField k rest

/-- Deserialize `Message`: both `role` and `content` are required strings. -/
def parseMessage : Json → Option Message
  | Json.obj fs =>
    match lookupField ("role".toList) fs, lookupField ("content".toList) fs with
    | some (Json.str r), some (Json.str c) => some ⟨r, c⟩
    | _, _ => none
  | _ => none

/-- Deserialize `Choice`: the `message` field is required. -/
def parseChoice : Json → Option Choice
  | Json.obj fs =>
    match lookupField ("message".toList) fs with
    | some j => (parseMessage j).map Choice.mk
    | none => none
  | _ => none

/-- Deserialize `Vec<Choice>`: must be an array, every element a `Choice`. -/
def parseChoices : Json → Option (List Choice)
  | Json.arr xs => xs.mapM parseChoice
  | _ => none

/-- Deserialize `OpenAIError`: the `message` field is a required string. -/
def parseOpenAIError : Json → Option OpenAIError
  | Json.obj fs =>
    match lookupField ("message".toList) fs with
    | some (Json.str m) => some ⟨m⟩
    | _ => none
  | _ => none

/-- Deserialize `Option<OpenAIError>`: JSON `null` becomes `none`. -/
def parseOptError : Json → Option (Option OpenAIError)
  | Json.null => some none
  | j => (parseOpenAIError j).map some

/-- The serde-derived deserializer of `OpenAIResponse` (src/main.rs lines
48-53): `choices` is a required field, while `error` carries
`#[serde(default)]`, so its absence yields `none` rather than a failure. -/
def parseOpenAIResponse : Json → Option OpenAIResponse
  | Json.obj fs =>
    match lookupField ("choices".toList) fs with
    | none => none
    | some cj =>
      match parseChoices cj with
      | none => none
      | some cs =>
        match lookupField ("error".toList) fs with
        | none => some ⟨cs, none⟩
        | some ej => (parseOptError ej).map (fun e => ⟨cs, e⟩)
  | _ => none

/-! ### Request construction (src/main.rs lines 109-165) -/

/-- The fixed system instructions (src/main.rs lines 114-157). -/
def systemPrompt : List Char :=
  ("You are an expert at writing conventional git commit messages. Analyze code diffs and generate a single, concise commit message following the format: <type>[optional scope]: <description>\n                    COMMIT TYPES:\n                    - **feat**: A new feature for the user\n                    - **fix**: A bug fix  \n                    - **docs**: Documentation only changes\n                    - **style**: Changes that don't affect code meaning (whitespace, formatting, semicolons)\n                    - **refactor**: Code change that neither fixes a bug nor adds a feature\n                    - **test**: Adding missing tests or correcting existing tests\n                    - **chore**: Changes to build process, auxiliary tools, or maintenance\n                    - **perf**: Performance improvements\n                    - **ci**: Changes to CI configuration files and scripts\n                    - **build**: Changes affecting the build system or external dependencies\n                    - **revert**: Reverts a previous commit\n\n                    EXAMPLES:\n                    feat: add user authentication system\n                    feat(auth): implement password reset functionality\n                    fix: resolve memory leak in data processing\n                    fix(api): handle null response from external service\n                    docs: update API documentation\n                    docs(readme): add installation instructions\n                    style: fix indentation in user service\n                    style(css): update button hover effects\n                    refactor: extract validation logic into separate module\n                    refactor(utils): simplify date formatting functions\n                    test: add unit tests for payment processing\n                    test(integration): add API endpoint tests\n                    chore: update dependencies\n                    chore(deps): bump lodash from 4.17.19 to 4.17.21\n                    perf: improve database query efficiency\n                    perf(images): optimize image loading algorithm\n                    ci: add automated testing workflow\n                    ci(github): update deployment pipeline\n                    build: update webpack configuration\n                    build(npm): add new build script\n                    revert: revert \"feat: add experimental feature\"\n\n                    RULES:\n                    - Keep description under 50 characters when possible\n                    - Use imperative mood (add, fix, update, not added, fixed, updated)\n                    - Don't end with a period\n                    - Focus on WHAT changed, not HOW\n                    - If multiple types of changes, pick the most significant one\n                    - Use scope in parentheses when appropriate (component, file, or area affected)").toList

/-- The user turn's content: `format!("Generate a conventional commit
message for this diff:\n\n{}", diff)` (src/main.rs line 161). -/
def userPrompt (diff : List Char) : List Char :=
  ("Generate a conventional commit message for this diff:\n\n").toList ++ diff

/-- The request body built at src/main.rs lines 109-165: model string,
a system turn followed by a user turn embedding the diff, and the
temperature. -/
def buildRequest {α : Type} (model : List Char) (temperature : α)
    (diff : List Char) : OpenAIRequest α :=
  { model := model
    messages :=
      [ ⟨"system".toList, systemPrompt⟩,
        ⟨"user".toList, userPrompt diff⟩ ]
    temperature := temperature }

/-! ### External environment and observable actions -/

/-- `reqwest::StatusCode::is_success`: 200..=299. -/
def isSuccessStatus (status : Nat) : Bool :=
  200 ≤ status && status < 300

/-- The HTTP response the transport hands back (src/main.rs lines 168-185):
its status code, the result of reading the body as text (`response.text()`,
`none` when the read itself fails), and the body as a JSON value for the
`response.json::<OpenAIResponse>()` step. -/
structure HttpResponse where
  status : Nat
  bodyText : Option (List Char)
  bodyJson : Json

/-- Outcomes of every external interaction the program can attempt, fixed
up front: the `OPENAI_API_KEY` lookup, `git rev-parse --is-inside-work-tree`
(`none` = the subprocess could not be spawned, otherwise its exit-status
success flag), `git diff --staged` (`none` = spawn failure; `some none` =
output not valid UTF-8; `some (some d)` = decoded diff text), the HTTP
exchange (`none` = send failure), and `git commit -m` (`none` = spawn
failure, otherwise exit-status success flag and captured stderr text). -/
structure Env where
  apiKey : Option (List Char)
  gitCheck : Option Bool
  gitDiff : Option (Option (List Char))
  httpResponse : Option HttpResponse
  commitExec : Option (Bool × List Char)

/-- Observable external actions, in program order. -/
inductive Event (α : Type) where
  | gitCheckCall : Event α
  | gitDiffCall : Event α
  | httpCall (req : OpenAIRequest α) : Event α
  | commitCall (msg : List Char) : Event α
deriving DecidableEq

/-- The failure cases of `generate_commit_message` and `get_git_diff`
(src/main.rs lines 98-235), in the order the code can produce them. -/
inductive GenError where
  | missingApiKey : GenError
  | gitExecFailed : GenError
  | notARepo : GenError
  | diffExecFailed : GenError
  | diffNotUtf8 : GenError
  | emptyDiff : GenError
  | sendFailed : GenError
  | apiRequestFailed (msg : List Char) : GenError
  | parseFailed : GenError
  | apiError (msg : List Char) : GenError
  | noChoices : GenError
deriving DecidableEq

/-- The failure cases of `main` (src/main.rs lines 66-96): a failure
propagated from `generate_commit_message`, or one from `create_commit`
(src/main.rs lines 237-249). -/
inductive RunError where
  | gen (e : GenError) : RunError
  | commitExecFailed : RunError
  | commitFailed (stderr : List Char) : RunError
deriving DecidableEq

/-- The text of the non-success-status error:
`anyhow!("API request failed: {}", error_text)` where `error_text` is the
body or `"Unknown error"` when reading it failed (src/main.rs lines 177-180). -/
def apiFailMessage (bodyText : Option (List Char)) : List Char :=
  ("API request failed: ").toList ++ bodyText.getD ("Unknown error".toList)

/-- `generate_commit_message` together with `get_git_diff`
(src/main.rs lines 98-235): environment lookup, repository check, staged
diff retrieval with the empty-diff check, request construction, the HTTP
exchange, and the validation/normalization of the response. Returns the
result and the trace of external actions. -/
def generateCommitMessage {α : Type} (env : Env) (model : List Char)
    (temperature : α) : Except GenError (List Char) × List (Event α) :=
  match env.apiKey with
  | none => (Except.error GenError.missingApiKey, [])
  | some _ =>
    match env.gitCheck with
    | none => (Except.error GenError.gitExecFailed, [Event.gitCheckCall])
    | some false => (Except.error GenError.notARepo, [Event.gitCheckCall])
    | some true =>
      match env.gitDiff with
      | none =>
        (Except.error GenError.diffExecFailed, [Event.gitCheckCall, Event.gitDiffCall])
      | some none =>
        (Except.error GenError.diffNotUtf8, [Event.gitCheckCall, Event.gitDiffCall])
      | some (some diff) =>
        if diff = [] then
          (Except.error GenError.emptyDiff, [Event.gitCheckCall, Event.gitDiffCall])
        else
          let pre := [Event.gitCheckCall, Event.gitDiffCall,
            Event.httpCall (buildRequest model temperature diff)]
          match env.httpResponse with
          | none => (Except.error GenError.sendFailed, pre)
          | some resp =>
            if isSuccessStatus resp.status then
              match parseOpenAIResponse resp.bodyJson with
              | none => (Except.error GenError.parseFailed, pre)
              | some body =>
                match body.error with
                | some e => (Except.error (GenError.apiError e.message), pre)
                | none =>
                  match body.choices with
                  | [] => (Except.error GenError.noChoices, pre)
                  | choice :: _ =>
                    (Except.ok (normalize choice.message.content), pre)
            else
              (Except.error (GenError.apiRequestFailed (apiFailMessage resp.bodyText)), pre)

/-- `main` for the generate/commit modes (src/main.rs lines 73-93) together
with `create_commit` (src/main.rs lines 237-249): when a flag is set, run
the pipeline; in commit mode, a successful message is handed to
`git commit -m`. -/
def run {α : Type} (env : Env) (generate commitFlag : Bool) (model : List Char)
    (temperature : α) : Except RunError Unit × List (Event α) :=
  if generate || commitFlag then
    match generateCommitMessage env model temperature with
    | (Except.error e, tr) => (Except.error (RunError.gen e), tr)
    | (Except.ok msg, tr) =>
      if commitFlag then
        match env.commitExec with
        | none =>
          (Except.error RunError.commitExecFailed, tr ++ [Event.commitCall msg])
        | some (true, _) =>
          (Except.ok (), tr ++ [Event.commitCall msg])
        | some (false, stderrText) =>
          (Except.error (RunError.commitFailed stderrText), tr ++ [Event.commitCall msg])
      else
        (Except.ok (), tr)
  else
    (Except.ok (), [])

/-! ### Generic lemmas about `trimBy` -/

theorem head?_dropWhile_false {α : Type} (p : α → Bool) :
    ∀ (s : List α) (c : α), (s.dropWhile p).head? = some c → p c = false := by
  intro s
  induction s with
  | nil => intro c h; simp at h
  | cons a l ih =>
    intro c h
    rw [List.dropWhile_cons] at h
    by_cases hp : p a
    · rw [if_pos hp] at h
      exact ih c h
    · rw [if_neg hp] at h
      simp only [List.head?_cons, Option.some.injEq] at h
      subst h
      simpa using hp

theorem dropWhile_eq_self_of_head? {α : Type} (p : α → Bool) (l : List α)
    (h : ∀ c, l.head? = some c → p c = false) : l.dropWhile p = l := by
  cases l with
  | nil => rfl
  | cons a t =>
    have ha : p a = false := h a rfl
    simp [List.dropWhile_cons, ha]

theorem prefix_head? {α : Type} {l t : List α} (h : l <+: t) (hne : l ≠ []) :
    l.head? = t.head? := by
  obtain ⟨u, rfl⟩ := h
  cases l with
  | nil => exact absurd rfl hne
  | cons a l => rfl

/-- The result of `trimBy` never starts with a character matching `p`. -/
theorem trimBy_head? (p : Char → Bool) (s : List Char) :
    ∀ c, (trimBy p s).head? = some c → p c = false := by
  intro c h
  have hpre : trimBy p s <+: s.dropWhile p := List.rdropWhile_prefix p _
  have hne : trimBy p s ≠ [] := by
    intro hnil
    rw [hnil] at h
    simp at h
  rw [prefix_head? hpre hne] at h
  exact head?_dropWhile_false p s c h

/-- The result of `trimBy` never ends with a character matching `p`. -/
theorem trimBy_getLast? (p : Char → Bool) (s : List Char) :
    ∀ c, (trimBy p s).getLast? = some c → p c = false := by
  intro c h
  rw [List.getLast?_eq_head?_reverse] at h
  rw [trimBy, List.rdropWhile, List.reverse_reverse] at h
  exact head?_dropWhile_false p _ c h

theorem trimBy_idem (p : Char → Bool) (s : List Char) :
    trimBy p (trimBy p s) = trimBy p s := by
  have h1 : (trimBy p s).dropWhile p = trimBy p s :=
    dropWhile_eq_self_of_head? p _ (trimBy_head? p s)
  show List.rdropWhile p ((trimBy p s).dropWhile p) = trimBy p s
  rw [h1]
  exact List.rdropWhile_idempotent p _

/-- A list splits as its `trimBy` core surrounded by runs of characters
matching `p`. -/
theorem trimBy_decomp (p : Char → Bool) (s : List Char) :
    ∃ a b, s = a ++ trimBy p s ++ b ∧
      (∀ c ∈ a, p c = true) ∧ (∀ c ∈ b, p c = true) := by
  refine ⟨s.takeWhile p, List.rtakeWhile p (s.dropWhile p), ?_, ?_, ?_⟩
  · have h1 : s.takeWhile p ++ s.dropWhile p = s := List.takeWhile_append_dropWhile p s
    have h2 : s.dropWhile p =
        List.rdropWhile p (s.dropWhile p) ++ List.rtakeWhile p (s.dropWhile p) := by
      rw [List.rdropWhile, List.rtakeWhile, ← List.reverse_append,
        List.takeWhile_append_dropWhile, List.reverse_reverse]
    rw [trimBy, List.append_assoc, ← h2, h1]
  · intro c hc
    exact List.mem_takeWhile_imp hc
  · intro c hc
    exact List.mem_rtakeWhile_imp hc

/-! ### Concrete environments used to exercise the theorems -/

/-- A response whose single choice's content is exactly two double quotes,
so it normalizes to the empty message (claim C2). -/
def respEmptyMsg : HttpResponse :=
  ⟨200, some [],
    Json.obj
      [ ("choices".toList,
          Json.arr
            [ Json.obj
                [ ("message".toList,
                    Json.obj
                      [ ("role".toList, Json.str ("assistant".toList)),
                        ("content".toList, Json.str ("\"\"".toList)) ]) ] ]),
        ("error".toList, Json.null) ]⟩

/-- Environment for claim C2: everything succeeds, the commit succeeds. -/
def envEmptyMsg : Env :=
  ⟨some ("k".toList), some true, some (some ("+x".toList)), some respEmptyMsg,
    some (true, [])⟩

/-- The parsed form of `respEmptyMsg`'s body. -/
def bodyEmptyMsg : OpenAIResponse :=
  ⟨[⟨⟨"assistant".toList, "\"\"".toList⟩⟩], none⟩

/-- A response carrying both a non-empty choice and an error object
(claim C4). -/
def respBothErrorAndChoice : HttpResponse :=
  ⟨200, some [],
    Json.obj
      [ ("choices".toList,
          Json.arr
            [ Json.obj
                [ ("message".toList,
                    Json.obj
                      [ ("role".toList, Json.str ("assistant".toList)),
                        ("content".toList, Json.str ("feat: x".toList)) ]) ] ]),
        ("error".toList,
          Json.obj [ ("message".toList, Json.str ("boom".toList)) ]) ]⟩

/-- Environment for claim C4. -/
def envBothErrorAndChoice : Env :=
  ⟨some ("k".toList), some true, some (some ("+x".toList)),
    some respBothErrorAndChoice, none⟩

/-- The parsed form of `respBothErrorAndChoice`'s body. -/
def bodyBothErrorAndChoice : OpenAIResponse :=
  ⟨[⟨⟨"assistant".toList, "feat: x".toList⟩⟩], some ⟨"boom".toList⟩⟩

/-- Environment for claim C5: the staged diff is empty text. -/
def envEmptyDiff : Env :=
  ⟨some ("k".toList), some true, some (some []), none, none⟩

/-- The raw 401 body of claim C7. -/
def bodyText401 : List Char :=
  ("\x7b\"error\":\x7b\"message\":\"invalid api key\"\x7d\x7d").toList

/-- A 401 response carrying `bodyText401` (claim C7). -/
def resp401 : HttpResponse :=
  ⟨401, some bodyText401, Json.null⟩

/-- Environment for claim C7, with a commit step that would succeed. -/
def env401 : Env :=
  ⟨some ("k".toList), some true, some (some ("+x".toList)), some resp401,
    some (true, [])⟩

/-- The body `{"choices":[],"error":null}` of claim C8. -/
def respNoChoices : HttpResponse :=
  ⟨200, some [],
    Json.obj [ ("choices".toList, Json.arr []), ("error".toList, Json.null) ]⟩

/-- Environment for claim C8. -/
def envNoChoices : Env :=
  ⟨some ("k".toList), some true, some (some ("+x".toList)), some respNoChoices,
    none⟩

/-- Object fields with a well-formed `error` object but no `choices` key
(claim C9). -/
def fieldsNoChoicesKey : List (List Char × Json) :=
  [ ("error".toList, Json.obj [ ("message".toList, Json.str ("oops".toList)) ]) ]

/-- A 200 response whose body lacks the `choices` field (claim C9). -/
def respNoChoicesKey : HttpResponse :=
  ⟨200, some [], Json.obj fieldsNoChoicesKey⟩

/-- Environment for claim C9. -/
def envNoChoicesKey : Env :=
  ⟨some ("k".toList), some true, some (some ("+x".toList)), some respNoChoicesKey,
    none⟩

/-- Environment for claim C10: no API key, and the directory is not a
repository — the repository check would fail if it were ever run. -/
def envNoKey : Env :=
  ⟨none, some false, some (some []), none, none⟩

/-! ### Claims -/

/-- Claim C1 counterexample: on `""a""` the code's normalization removes
two quote characters from each end, where the claim allows at most one. -/
theorem c1_counterexample :
    normalize ("\"\"a\"\"".toList) ≠ normalizeSpecOnePair ("\"\"a\"\"".toList) ∧
    normalize ("\"\"a\"\"".toList) = "a".toList ∧
    normalizeSpecOnePair ("\"\"a\"\"".toList) = "\"a\"".toList := by
  refine ⟨?_, ?_, ?_⟩ <;> decide

/-- Claim C1 (amended): the normalization trims surrounding whitespace and
then strips ALL leading and trailing double-quote characters, each end
independently and repeatedly, so the result never begins or ends with a
double quote; nothing else is removed from the trimmed text. -/
theorem c1_normalize_strips_all_quotes (s : List Char) :
    ∃ a b, rustTrim s = a ++ normalize s ++ b ∧
      (∀ c ∈ a, c = '"') ∧ (∀ c ∈ b, c = '"') ∧
      (normalize s).head? ≠ some '"' ∧ (normalize s).getLast? ≠ some '"' := by
  obtain ⟨a, b, hab, ha, hb⟩ := trimBy_decomp isQuote (rustTrim s)
  refine ⟨a, b, hab, ?_, ?_, ?_, ?_⟩
  · intro c hc
    simpa [isQuote] using ha c hc
  · intro c hc
    simpa [isQuote] using hb c hc
  · intro h
    have h2 := trimBy_head? isQuote (rustTrim s) '"' h
    simp [isQuote] at h2
  · intro h
    have h2 := trimBy_getLast? isQuote (rustTrim s) '"' h
    simp [isQuote] at h2

/-- Claim C3 counterexample: on the input `" a` (quote, space, letter)
normalization is not idempotent — stripping the quote exposes whitespace
that a second pass removes. -/
theorem c3_counterexample :
    normalize (normalize ("\" a".toList)) ≠ normalize ("\" a".toList) := by
  decide

/-- Claim C3 (amended): normalization is idempotent on every input whose
normalized form carries no leading or trailing whitespace; in general a
quote stripped by the first pass can expose whitespace, which a second
pass would remove. -/
theorem c3_normalize_idem_of_trimmed (x : List Char)
    (h : rustTrim (normalize x) = normalize x) :
    normalize (normalize x) = normalize x := by
  show trimMatchesQuote (rustTrim (normalize x)) = normalize x
  rw [h]
  show trimBy isQuote (trimBy isQuote (rustTrim x)) = normalize x
  rw [trimBy_idem]
  rfl

/-- Claim C3 witness: the theorem applied to `"a"` (a quoted letter). -/
theorem c3_witness :
    rustTrim (normalize ("\"a\"".toList)) = normalize ("\"a\"".toList) ∧
    normalize (normalize ("\"a\"".toList)) = normalize ("\"a\"".toList) :=
  ⟨by decide, c3_normalize_idem_of_trimmed ("\"a\"".toList) (by decide)⟩

/-- Claim C2 counterexample: a response whose content normalizes to the
empty string makes the pipeline return the empty message successfully —
there is no EmptyMessage failure — and in commit mode the commit step is
invoked with that empty message. -/
theorem c2_counterexample :
    (generateCommitMessage envEmptyMsg ("m".toList) (1 : Int)).1 =
      Except.ok [] ∧
    (run envEmptyMsg false true ("m".toList) (1 : Int)).1 = Except.ok () ∧
    Event.commitCall [] ∈ (run envEmptyMsg false true ("m".toList) (1 : Int)).2 :=
  ⟨rfl, rfl, by decide⟩

/-- Claim C2 (amended): a first choice whose content normalizes to the
empty string is returned as a successful (empty) commit message — the
pipeline does not fail — and in commit mode the commit step is invoked
with that empty message. -/
theorem c2_empty_message_returned (env : Env) {α : Type}
    (k d : List Char) (resp : HttpResponse) (body : OpenAIResponse)
    (choice : Choice) (rest : List Choice) (g : Bool)
    (hk : env.apiKey = some k) (hgc : env.gitCheck = some true)
    (hgd : env.gitDiff = some (some d)) (hd : d ≠ [])
    (hr : env.httpResponse = some resp)
    (hst : isSuccessStatus resp.status = true)
    (hp : parseOpenAIResponse resp.bodyJson = some body)
    (he : body.error = none) (hc : body.choices = choice :: rest)
    (hn : normalize choice.message.content = [])
    (hcommit : env.commitExec = some (true, []))
    (model : List Char) (t : α) :
    (generateCommitMessage env model t).1 = Except.ok [] ∧
    (run env g true model t).1 = Except.ok () ∧
    Event.commitCall [] ∈ (run env g true model t).2 := by
  refine ⟨?_, ?_, ?_⟩ <;>
    simp [run, generateCommitMessage, hk, hgc, hgd, hd, hr, hst, hp, he, hc,
      hn, hcommit]

/-- Claim C2 witness: the theorem applied to `envEmptyMsg`. -/
theorem c2_witness :
    envEmptyMsg.apiKey = some ("k".toList) ∧
    parseOpenAIResponse respEmptyMsg.bodyJson = some bodyEmptyMsg ∧
    normalize (Choice.mk ⟨"assistant".toList, "\"\"".toList⟩).message.content = [] ∧
    ((generateCommitMessage envEmptyMsg ("m".toList) (1 : Int)).1 =
        Except.ok [] ∧
      (run envEmptyMsg false true ("m".toList) (1 : Int)).1 = Except.ok () ∧
      Event.commitCall [] ∈ (run envEmptyMsg false true ("m".toList) (1 : Int)).2) :=
  ⟨rfl, by decide, by decide,
    c2_empty_message_returned envEmptyMsg ("k".toList) ("+x".toList)
      respEmptyMsg bodyEmptyMsg ⟨⟨"assistant".toList, "\"\"".toList⟩⟩ [] false
      rfl rfl rfl (by decide) rfl (by decide) (by decide) rfl rfl (by decide)
      rfl ("m".toList) (1 : Int)⟩

/-- Claim C4: a successfully deserialized body with an error object makes
the pipeline fail with ApiError carrying that object's message, whatever
the choices hold. -/
theorem c4_apiError_precedence {α : Type} (env : Env) (k d : List Char)
    (resp : HttpResponse) (body : OpenAIResponse) (e : OpenAIError)
    (hk : env.apiKey = some k) (hgc : env.gitCheck = some true)
    (hgd : env.gitDiff = some (some d)) (hd : d ≠ [])
    (hr : env.httpResponse = some resp)
    (hst : isSuccessStatus resp.status = true)
    (hp : parseOpenAIResponse resp.bodyJson = some body)
    (he : body.error = some e)
    (model : List Char) (t : α) :
    (generateCommitMessage env model t).1 =
      Except.error (GenError.apiError e.message) := by
  simp [generateCommitMessage, hk, hgc, hgd, hd, hr, hst, hp, he]

/-- Claim C4 witness: a body holding both a valid choice and an error
object fails with the error's message. -/
theorem c4_witness :
    parseOpenAIResponse respBothErrorAndChoice.bodyJson =
      some bodyBothErrorAndChoice ∧
    bodyBothErrorAndChoice.error = some ⟨"boom".toList⟩ ∧
    bodyBothErrorAndChoice.choices ≠ [] ∧
    (generateCommitMessage envBothErrorAndChoice ("m".toList) (1 : Int)).1 =
      Except.error (GenError.apiError ("boom".toList)) :=
  ⟨by decide, rfl, by decide,
    c4_apiError_precedence envBothErrorAndChoice ("k".toList) ("+x".toList)
      respBothErrorAndChoice bodyBothErrorAndChoice ⟨"boom".toList⟩
      rfl rfl rfl (by decide) rfl (by decide) (by decide) rfl
      ("m".toList) (1 : Int)⟩

/-- Claim C5: an empty staged diff fails the pipeline with the empty-diff
error after exactly the two git calls — no HTTP call appears in the trace. -/
theorem c5_emptyDiff_no_httpCall {α : Type} (env : Env) (k : List Char)
    (g c : Bool)
    (hk : env.apiKey = some k) (hgc : env.gitCheck = some true)
    (hgd : env.gitDiff = some (some [])) (hgen : (g || c) = true)
    (model : List Char) (t : α) :
    (run env g c model t).1 = Except.error (RunError.gen GenError.emptyDiff) ∧
    (run env g c model t).2 = [Event.gitCheckCall, Event.gitDiffCall] ∧
    ∀ r, Event.httpCall r ∉ (run env g c model t).2 := by
  refine ⟨?_, ?_, ?_⟩ <;> simp [run, generateCommitMessage, hk, hgc, hgd, hgen]

/-- Claim C5 witness: the theorem applied to `envEmptyDiff` in generate
mode. -/
theorem c5_witness :
    envEmptyDiff.gitDiff = some (some []) ∧
    ((run envEmptyDiff true false ("m".toList) (1 : Int)).1 =
        Except.error (RunError.gen GenError.emptyDiff) ∧
      (run envEmptyDiff true false ("m".toList) (1 : Int)).2 =
        [Event.gitCheckCall, Event.gitDiffCall] ∧
      ∀ r, Event.httpCall r ∉ (run envEmptyDiff true false ("m".toList) (1 : Int)).2) :=
  ⟨rfl,
    c5_emptyDiff_no_httpCall envEmptyDiff ("k".toList) true false
      rfl rfl rfl (by decide) ("m".toList) (1 : Int)⟩

/-- Claim C6: for every model, temperature and non-empty diff, the built
request is exactly a system turn followed by a user turn, and the user
turn's content contains the diff verbatim as a substring. -/
theorem c6_buildRequest_turns {α : Type} (model : List Char) (t : α)
    (diff : List Char) (_hd : diff ≠ []) :
    (buildRequest model t diff).messages =
      [⟨"system".toList, systemPrompt⟩, ⟨"user".toList, userPrompt diff⟩] ∧
    (buildRequest model t diff).messages.map Message.role =
      ["system".toList, "user".toList] ∧
    diff <:+: userPrompt diff := by
  refine ⟨rfl, rfl, ?_⟩
  exact ⟨("Generate a conventional commit message for this diff:\n\n").toList, [],
    by simp [userPrompt]⟩

/-- Claim C6 witness: the theorem applied to a one-line diff. -/
theorem c6_witness :
    ("+x".toList ≠ ([] : List Char)) ∧
    ((buildRequest ("m".toList) (1 : Int) ("+x".toList)).messages =
        [⟨"system".toList, systemPrompt⟩, ⟨"user".toList, userPrompt ("+x".toList)⟩] ∧
      (buildRequest ("m".toList) (1 : Int) ("+x".toList)).messages.map Message.role =
        ["system".toList, "user".toList] ∧
      "+x".toList <:+: userPrompt ("+x".toList)) :=
  ⟨by decide, c6_buildRequest_turns ("m".toList) (1 : Int) ("+x".toList) (by decide)⟩

/-- Claim C7: a non-success HTTP status fails the run with ApiRequestFailed
whose message is the fixed text followed by the raw body (or the
`Unknown error` placeholder), the body is contained in the message, and
no commit call appears in the trace even in commit mode. -/
theorem c7_apiRequestFailed {α : Type} (env : Env) (k d : List Char)
    (resp : HttpResponse) (g : Bool)
    (hk : env.apiKey = some k) (hgc : env.gitCheck = some true)
    (hgd : env.gitDiff = some (some d)) (hd : d ≠ [])
    (hr : env.httpResponse = some resp)
    (hst : isSuccessStatus resp.status = false)
    (model : List Char) (t : α) :
    (run env g true model t).1 =
      Except.error (RunError.gen
        (GenError.apiRequestFailed (apiFailMessage resp.bodyText))) ∧
    (∀ b, resp.bodyText = some b → b <:+: apiFailMessage resp.bodyText) ∧
    ∀ m, Event.commitCall m ∉ (run env g true model t).2 := by
  refine ⟨?_, ?_, ?_⟩
  · simp [run, generateCommitMessage, hk, hgc, hgd, hd, hr, hst]
  · intro b hb
    refine ⟨("API request failed: ").toList, [], ?_⟩
    simp [apiFailMessage, hb]
  · intro m
    simp [run, generateCommitMessage, hk, hgc, hgd, hd, hr, hst]

/-- Claim C7 witness: the theorem applied to a 401 response carrying
`{"error":{"message":"invalid api key"}}`; the resulting message contains
`invalid api key`, and no commit call occurs although commit mode is on. -/
theorem c7_witness :
    isSuccessStatus resp401.status = false ∧
    ("invalid api key".toList <:+: apiFailMessage resp401.bodyText) ∧
    ((run env401 false true ("m".toList) (1 : Int)).1 =
        Except.error (RunError.gen
          (GenError.apiRequestFailed (apiFailMessage resp401.bodyText)))) :=
  ⟨by decide,
    ⟨("API request failed: \x7b\"error\":\x7b\"message\":\"").toList,
      ("\"\x7d\x7d").toList, by decide⟩,
    (c7_apiRequestFailed env401 ("k".toList) ("+x".toList) resp401 false
      rfl rfl rfl (by decide) rfl (by decide) ("m".toList) (1 : Int)).1⟩

/-- Claim C8: a deserialized body with an empty choices list and no error
object fails the pipeline with the no-choices error. -/
theorem c8_noChoices {α : Type} (env : Env) (k d : List Char)
    (resp : HttpResponse) (body : OpenAIResponse)
    (hk : env.apiKey = some k) (hgc : env.gitCheck = some true)
    (hgd : env.gitDiff = some (some d)) (hd : d ≠ [])
    (hr : env.httpResponse = some resp)
    (hst : isSuccessStatus resp.status = true)
    (hp : parseOpenAIResponse resp.bodyJson = some body)
    (he : body.error = none) (hc : body.choices = [])
    (model : List Char) (t : α) :
    (generateCommitMessage env model t).1 = Except.error GenError.noChoices := by
  simp [generateCommitMessage, hk, hgc, hgd, hd, hr, hst, hp, he, hc]

/-- Claim C8 witness: the theorem applied to the exact body
`{"choices":[],"error":null}`. -/
theorem c8_witness :
    parseOpenAIResponse respNoChoices.bodyJson = some ⟨[], none⟩ ∧
    (generateCommitMessage envNoChoices ("m".toList) (1 : Int)).1 =
      Except.error GenError.noChoices :=
  ⟨by decide,
    c8_noChoices envNoChoices ("k".toList) ("+x".toList) respNoChoices
      ⟨[], none⟩ rfl rfl rfl (by decide) rfl (by decide) (by decide) rfl rfl
      ("m".toList) (1 : Int)⟩

/-- Claim C9: a response body lacking the `choices` field entirely fails
deserialization — `choices` is required while `error` defaults to absent —
so the pipeline reports the parse failure even when a well-formed error
object is present. -/
theorem c9_missing_choices_parseFailed {α : Type} (env : Env) (k d : List Char)
    (resp : HttpResponse) (fields : List (List Char × Json))
    (hk : env.apiKey = some k) (hgc : env.gitCheck = some true)
    (hgd : env.gitDiff = some (some d)) (hd : d ≠ [])
    (hr : env.httpResponse = some resp)
    (hst : isSuccessStatus resp.status = true)
    (hj : resp.bodyJson = Json.obj fields)
    (hnc : lookupField ("choices".toList) fields = none)
    (model : List Char) (t : α) :
    parseOpenAIResponse resp.bodyJson = none ∧
    (generateCommitMessage env model t).1 = Except.error GenError.parseFailed := by
  have hnc2 : lookupField ['c', 'h', 'o', 'i', 'c', 'e', 's'] fields = none := hnc
  have hpn : parseOpenAIResponse resp.bodyJson = none := by
    rw [hj]
    simp [parseOpenAIResponse, hnc2]
  exact ⟨hpn, by simp [generateCommitMessage, hk, hgc, hgd, hd, hr, hst, hpn]⟩

/-- Claim C9 witness: the theorem applied to a body holding only a
well-formed error object and no `choices` key. -/
theorem c9_witness :
    lookupField ("choices".toList) fieldsNoChoicesKey = none ∧
    (parseOpenAIResponse respNoChoicesKey.bodyJson = none ∧
      (generateCommitMessage envNoChoicesKey ("m".toList) (1 : Int)).1 =
        Except.error GenError.parseFailed) :=
  ⟨rfl,
    c9_missing_choices_parseFailed envNoChoicesKey ("k".toList) ("+x".toList)
      respNoChoicesKey fieldsNoChoicesKey rfl rfl rfl (by decide) rfl
      (by decide) rfl rfl ("m".toList) (1 : Int)⟩

/-- Claim C10: with the API key absent, a generate- or commit-mode run
fails with the missing-key error and its trace is empty — no git
subprocess is ever invoked, whatever state the repository is in. -/
theorem c10_missingKey_before_git {α : Type} (env : Env) (g c : Bool)
    (hk : env.apiKey = none) (hgen : (g || c) = true)
    (model : List Char) (t : α) :
    (run env g c model t).1 =
      Except.error (RunError.gen GenError.missingApiKey) ∧
    (run env g c model t).2 = ([] : List (Event α)) := by
  refine ⟨?_, ?_⟩ <;> simp [run, generateCommitMessage, hk, hgen]

/-- Claim C10 witness: the theorem applied to an environment with no key
in a directory that is not a repository. -/
theorem c10_witness :
    envNoKey.apiKey = none ∧ envNoKey.gitCheck = some false ∧
    ((run envNoKey true true ("m".toList) (1 : Int)).1 =
        Except.error (RunError.gen GenError.missingApiKey) ∧
      (run envNoKey true true ("m".toList) (1 : Int)).2 = ([] : List (Event Int))) :=
  ⟨rfl, rfl,
    c10_missingKey_before_git envNoKey true true rfl (by decide)
      ("m".toList) (1 : Int)⟩
